import Mathlib

/-!
Verification of the Postport single-page travel assistant
(`src/routes/+page.svelte`).

The development shallowly embeds the script portion of the page:

* the response splitter (the regex split on a fenced ```json block,
  lines 38-45 of the source),
* the pins payload guard and field normalizer (lines 49-64),
* the chat `sendMessage` flow (lines 17-69), with `fetch`/`res.json()`
  modelled as a `FetchResult` input and the platform `JSON.parse`
  modelled as a function argument `List Char → Option Json` (parse
  failure, i.e. a thrown exception, is `none`),
* the Google-Maps script loader (lines 78-102) and the screen/reactive
  map lifecycle (lines 124-142) as explicit state machines.

JavaScript strings are modelled as `List Char`; JSON numbers are
modelled as `Int` (every numeric literal the claims exercise is
integral and the embedded code performs no arithmetic on them);
JavaScript `undefined` is `Option.none` and JSON `null` is
`Json.null`.
-/

namespace Postport

/-- JavaScript's `\s` character class (also the set trimmed by
`String.prototype.trim`): ASCII whitespace, NBSP, the Unicode
space separators, the line separators and the BOM. -/
def isJsWs (c : Char) : Bool :=
  c = ' ' || c = '\t' || c = '\n' || c = '\r' ||
  c.toNat = 11 || c.toNat = 12 || c.toNat = 160 || c.toNat = 0x1680 ||
  (0x2000 ≤ c.toNat && c.toNat ≤ 0x200a) || c.toNat = 0x2028 ||
  c.toNat = 0x2029 || c.toNat = 0x202f || c.toNat = 0x205f ||
  c.toNat = 0x3000 || c.toNat = 0xfeff

/-- JavaScript `String.prototype.trim`: drop `\s`-class characters from
both ends. -/
def trimList (l : List Char) : List Char :=
  ((l.dropWhile isJsWs).reverse.dropWhile isJsWs).reverse

/-- The literal `"```json"` opening the fenced block matched by
`/```json[\s\r\n]*([\s\S]*?)```/` (source line 38). -/
def fenceJson : List Char := '`' :: '`' :: '`' :: 'j' :: 's' :: 'o' :: 'n' :: []

/-- The literal `"```"` closing the fenced block. -/
def bt3 : List Char := '`' :: '`' :: '`' :: []

/-- `stripFence pat l` returns `some rest` with `l = pat ++ rest` when
`pat` is a prefix of `l`, else `none`. -/
def stripFence : List Char → List Char → Option (List Char)
  | [], l => some l
  | _ :: _, [] => none
  | p :: ps, c :: cs => if p = c then stripFence ps cs else none

/-- First occurrence of `pat` as a contiguous substring: `some (a, b)`
with the input equal to `a ++ pat ++ b` and `a` shortest (the lazy
`([\s\S]*?)``` ` search for the closing fence). -/
def splitAtSub (pat : List Char) : List Char → Option (List Char × List Char)
  | [] =>
    match stripFence pat ([] : List Char) with
    | some r => some (([] : List Char), r)
    | none => none
  | c :: cs =>
    match stripFence pat (c :: cs) with
    | some r => some (([] : List Char), r)
    | none =>
      match splitAtSub pat cs with
      | some (a, b) => some (c :: a, b)
      | none => none

/-- After the opening `"```json"`: greedily consume the `[\s\r\n]*` run,
then lazily capture up to the first closing `"```"`.  Returns
`some (ws, capture, suffix)` with `rest = ws ++ capture ++ "```" ++ suffix`. -/
def tryClose (rest : List Char) : Option (List Char × List Char × List Char) :=
  match splitAtSub bt3 (rest.dropWhile isJsWs) with
  | some (cap, suf) => some (rest.takeWhile isJsWs, cap, suf)
  | none => none

/-- A fenced-block match anchored at the start of `l`: the opening
`"```json"`, the whitespace run, the lazy capture and the closing
`"```"`. -/
def openFence (l : List Char) : Option (List Char × List Char × List Char) :=
  match stripFence fenceJson l with
  | some rest => tryClose rest
  | none => none

/-- `text.match(/```json[\s\r\n]*([\s\S]*?)```/)` (source lines 38-39):
the leftmost position where `"```json"` occurs and a closing `"```"`
follows.  Returns `some (pre, ws, capture, suffix)` decomposing the
input as `pre ++ "```json" ++ ws ++ capture ++ "```" ++ suffix`;
`capture` is the regex's first capture group (`match[1]`). -/
def findFence : List Char → Option (List Char × List Char × List Char × List Char)
  | [] => none
  | c :: cs =>
    match openFence (c :: cs) with
    | some (ws, cap, suf) => some (([] : List Char), ws, cap, suf)
    | none =>
      match findFence cs with
      | some (pre, ws, cap, suf) => some (c :: pre, ws, cap, suf)
      | none => none

/-- The response splitter (source lines 38-45): when the regex matches,
the narrative is the text with the whole match removed and trimmed
(`text.replace(codeBlockRegex, '').trim()`) and the capture is the
candidate pins payload (`jsonText`); otherwise the narrative is the
untouched text and there is no payload. -/
def splitResponse (text : List Char) : List Char × Option (List Char) :=
  match findFence text with
  | some (pre, _ws, cap, suf) => (trimList (pre ++ suf), some cap)
  | none => (text, none)

/-- JSON values as produced by `JSON.parse` (numbers modelled as `Int`). -/
inductive Json where
  | null : Json
  | bool : Bool → Json
  | num : Int → Json
  | str : String → Json
  | arr : List Json → Json
  | obj : List (String × Json) → Json

/-- Object property lookup as on a parsed-JSON object: the last binding
of a duplicated key wins (as in `JSON.parse`); any key on a non-object
JSON value (number, string, boolean, array) is `undefined`, and `null`
is only ever accessed through `?.` in the guard, yielding `undefined`. -/
def getField (j : Json) (k : String) : Option Json :=
  match j with
  | Json.obj fs => fs.foldl (fun acc p => if p.1 = k then some p.2 else acc) none
  | _ => none

/-- JavaScript truthiness of a possibly-`undefined` JSON value:
`undefined`, `null`, `false`, `0` and `""` are falsy. -/
def truthy : Option Json → Bool
  | none => false
  | some Json.null => false
  | some (Json.bool b) => b
  | some (Json.num n) => decide (n ≠ 0)
  | some (Json.str s) => decide (s ≠ "")
  | some (Json.arr _) => true
  | some (Json.obj _) => true

/-- Nullish coalescing `a ?? b`: `b` when `a` is `undefined` or `null`. -/
def jsCoalesce (a b : Option Json) : Option Json :=
  match a with
  | none => b
  | some Json.null => b
  | some v => some v

/-- The guard on source line 52:
`Array.isArray(locations) && (locations[0]?.lat && locations[0]?.lng || locations[0]?.latitude && locations[0]?.longitude)`
(the `Array.isArray` conjunct is discharged by the caller's match on
`Json.arr`). -/
def pinsGuard (locs : List Json) : Bool :=
  let fld := fun (k : String) => truthy (locs.head?.bind (fun e => getField e k))
  (fld "lat" && fld "lng") || (fld "latitude" && fld "longitude")

/-- A canonical pin record (source lines 54-60); `none` is an
`undefined` field value. -/
structure Pin where
  lat : Option Json
  lng : Option Json
  label : Option Json
  icon : Option Json
  description : Option Json

/-- The field coalescing of the mapping on source lines 54-60 for one
record: `lat: loc.lat ?? loc.latitude`, `lng: loc.lng ?? loc.longitude`,
`label: loc.label ?? loc.name`, `icon: loc.icon`,
`description: loc.description`. -/
def normalizeFields (loc : Json) : Pin :=
  { lat := jsCoalesce (getField loc "lat") (getField loc "latitude")
    lng := jsCoalesce (getField loc "lng") (getField loc "longitude")
    label := jsCoalesce (getField loc "label") (getField loc "name")
    icon := getField loc "icon"
    description := getField loc "description" }

/-- One step of `locations.map(...)` (source line 54): property access
`loc.lat` on a `null` element throws a `TypeError` (modelled as `none`),
aborting the whole mapping; on every other JSON value it evaluates the
field coalescing. -/
def normalizePin : Json → Option Pin
  | Json.null => none
  | loc => some (normalizeFields loc)

/-- `locations.map(loc => ({...}))` (source lines 54-60): the mapping
runs left to right and the first `null` element throws, aborting the
whole call with nothing assigned. -/
def mapPinsThrow : List Json → Option (List Pin)
  | [] => some []
  | l :: ls =>
    match normalizePin l with
    | some p =>
      match mapPinsThrow ls with
      | some ps => some (p :: ps)
      | none => none
    | none => none

/-- A record has no latitude-like field: neither a `lat` nor a
`latitude` key. -/
def lacksLatLike (e : Json) : Bool :=
  (getField e "lat").isNone && (getField e "latitude").isNone

/-- A record has no longitude-like field: neither a `lng` nor a
`longitude` key. -/
def lacksLngLike (e : Json) : Bool :=
  (getField e "lng").isNone && (getField e "longitude").isNone

/-- Message roles (source line 12). -/
inductive Role where
  | user : Role
  | assistant : Role
deriving DecidableEq, Repr

/-- `ChatMessage` (source line 12); `markdown` is optional, `none` when
the property is omitted. -/
structure ChatMessage where
  role : Role
  content : List Char
  markdown : Option Bool
deriving DecidableEq, Repr

/-- The component state touched by `sendMessage`: the transcript, the
input box, the loading flag and the pin list; `fetchCalls` counts the
network requests issued by `fetch` (source line 25). -/
structure AppState where
  chatInput : List Char
  chatMessages : List ChatMessage
  isLoading : Bool
  mapPins : List Pin
  fetchCalls : Nat

/-- Outcome of `await fetch(...)` / `await res.json()` plus the
optional-chained text extraction on source line 36: `failure` is a
thrown network or body-parse error; `success t` carries
`data.candidates?.[0]?.content?.parts?.[0]?.text`, with `none` for an
absent path. -/
inductive FetchResult where
  | failure : FetchResult
  | success : Option (List Char) → FetchResult

/-- `data.candidates?.[0]?...?.text || '[No response]'` (source line 36):
an absent or empty (falsy) text falls back to the placeholder. -/
def extractText : Option (List Char) → List Char
  | none => "[No response]".toList
  | some t => if t = [] then "[No response]".toList else t

/-- The fixed assistant error message of the catch block (source line 66). -/
def errorMessage : ChatMessage :=
  { role := Role.assistant, content := "[Error contacting Gemini API]".toList, markdown := none }

/-- Source lines 49-64: `if (jsonText)` (the empty capture is falsy),
`JSON.parse` (a throw is `parse jt = none`), the `Array.isArray`/first
element guard, the mapping over all records (aborted by the `TypeError`
a `null` element raises) and `setMapPins`; every failure lands in the
empty `catch {}` leaving the state untouched. -/
def processPins (parse : List Char → Option Json) (st : AppState) (jt : List Char) : AppState :=
  if jt = [] then st
  else
    match parse jt with
    | some (Json.arr locs) =>
      if pinsGuard locs then
        match mapPinsThrow locs with
        | some pins => { st with mapPins := pins }
        | none => st
      else st
    | _ => st

/-- `sendMessage` (source lines 17-69) for one completed round trip:
the guard on blank input, the append of the user message, the fetch
(modelled by `fr`), the splitter, the assistant narrative append, the
pins stage and the clearing of the loading flag. -/
def sendMessage (parse : List Char → Option Json) (st : AppState) (fr : FetchResult) : AppState :=
  if trimList st.chatInput = [] then st
  else
    let st1 : AppState :=
      { st with
        chatMessages := st.chatMessages ++
          [{ role := Role.user, content := st.chatInput, markdown := none }]
        chatInput := []
        isLoading := true
        fetchCalls := st.fetchCalls + 1 }
    match fr with
    | FetchResult.failure =>
      { st1 with
        chatMessages := st1.chatMessages ++ [errorMessage]
        isLoading := false }
    | FetchResult.success t =>
      let text := extractText t
      let parts := splitResponse text
      let st2 : AppState :=
        { st1 with
          chatMessages := st1.chatMessages ++
            [{ role := Role.assistant, content := parts.1, markdown := some true }] }
      let st3 :=
        match parts.2 with
        | none => st2
        | some jt => processPins parse st2 jt
      { st3 with isLoading := false }

/-- The four screens (source line 9). -/
inductive Screen where
  | home : Screen
  | chat : Screen
  | planner : Screen
  | map : Screen
deriving DecidableEq, Repr

/-- The map-lifecycle state driven by the reactive blocks:
`mapCreated` counts `new gmaps.Map(...)` evaluations (source line 130)
and `loaderCalls` counts invocations of `loadGoogleMaps` from the init
block (source line 129). -/
structure MapUi where
  currentScreen : Screen
  mapInitialized : Bool
  mapCreated : Nat
  loaderCalls : Nat
deriving DecidableEq, Repr

/-- One screen switch: the assignment to `currentScreen` followed by the
reactive statements on source lines 126-142.  Entering the map screen
with `mapInitialized` false runs the `tick().then` body (the map pane's
div exists after `tick`, and the body is modelled as settling before the
next user event on the single event loop): it awaits `loadGoogleMaps`,
constructs a map instance and sets `mapInitialized`; any switch to a
non-map screen resets `mapInitialized` (source lines 140-142). -/
def selectScreen (st : MapUi) (s : Screen) : MapUi :=
  let st' : MapUi := { st with currentScreen := s }
  if s = Screen.map then
    if st'.mapInitialized then st'
    else
      { st' with
        loaderCalls := st'.loaderCalls + 1
        mapCreated := st'.mapCreated + 1
        mapInitialized := true }
  else { st' with mapInitialized := false }

/-- The page starts on the home screen with no map instance. -/
def initMapUi : MapUi :=
  { currentScreen := Screen.home, mapInitialized := false, mapCreated := 0, loaderCalls := 0 }

/-- A sequence of user clicks on the nav buttons. -/
def runScreens (st : MapUi) (ss : List Screen) : MapUi :=
  ss.foldl selectScreen st

/-- The browser-environment state read and written by `loadGoogleMaps`
(source lines 78-102): `googleMapsReady` is `window.google &&
window.google.maps`, `scriptTag` is the presence of the
`script[data-google-maps]` element, `gmapsLoaded` is `window.gmapsLoaded`,
`scriptRequests` counts `document.body.appendChild(script)` (the actual
network requests) and `waiters` the listeners registered on the
`gmaps:loaded` event. -/
structure GmapsEnv where
  googleMapsReady : Bool
  scriptTag : Bool
  gmapsLoaded : Bool
  scriptRequests : Nat
  waiters : Nat
deriving DecidableEq, Repr

/-- How one call of `loadGoogleMaps` settles its promise: immediately,
after the `gmaps:loaded` event, or (for the injecting call) on the
script's own `onload`. -/
inductive LoadOutcome where
  | immediate : LoadOutcome
  | waiting : LoadOutcome
  | injected : LoadOutcome
deriving DecidableEq, Repr

/-- `loadGoogleMaps` (source lines 78-102): resolve immediately when the
SDK is present; if the script tag already exists, resolve immediately
when `window.gmapsLoaded` is set, else register a `gmaps:loaded`
listener; otherwise inject the script tag (one network request). -/
def loadGoogleMaps (env : GmapsEnv) : GmapsEnv × LoadOutcome :=
  if env.googleMapsReady then (env, LoadOutcome.immediate)
  else if env.scriptTag then
    if env.gmapsLoaded then (env, LoadOutcome.immediate)
    else ({ env with waiters := env.waiters + 1 }, LoadOutcome.waiting)
  else
    ({ env with scriptTag := true, scriptRequests := env.scriptRequests + 1 },
     LoadOutcome.injected)

/-- Events of the loader lifecycle: a call of `loadGoogleMaps`, or the
injected script's `onload` (source lines 94-98: it defines
`google.maps`, sets `window.gmapsLoaded`, dispatches `gmaps:loaded`
resolving every waiter). -/
inductive GEvent where
  | call : GEvent
  | onload : GEvent
deriving DecidableEq, Repr

/-- Environment transition for one loader-lifecycle event. -/
def gstep (env : GmapsEnv) : GEvent → GmapsEnv
  | GEvent.call => (loadGoogleMaps env).1
  | GEvent.onload =>
    { env with googleMapsReady := true, gmapsLoaded := true, waiters := 0 }

/-- Fresh page: no SDK, no script tag, no requests. -/
def initGmaps : GmapsEnv :=
  { googleMapsReady := false, scriptTag := false, gmapsLoaded := false,
    scriptRequests := 0, waiters := 0 }

/-! ### Soundness of the splitter -/

theorem stripFence_sound (p : List Char) :
    ∀ l r : List Char, stripFence p l = some r → l = p ++ r := by
  induction p with
  | nil =>
    intro l r h
    simp only [stripFence, Option.some.injEq] at h
    simp [h]
  | cons q ps ih =>
    intro l r h
    cases l with
    | nil => simp [stripFence] at h
    | cons c cs =>
      simp only [stripFence] at h
      by_cases hqc : q = c
      · rw [if_pos hqc] at h
        have hcs := ih cs r h
        simp [hqc, hcs]
      · rw [if_neg hqc] at h
        exact absurd h (by simp)

theorem splitAtSub_sound (pat : List Char) :
    ∀ l a b : List Char, splitAtSub pat l = some (a, b) → l = a ++ pat ++ b := by
  intro l
  induction l with
  | nil =>
    intro a b h
    simp only [splitAtSub] at h
    cases hs : stripFence pat ([] : List Char) with
    | none => rw [hs] at h; exact absurd h (by simp)
    | some r =>
      rw [hs] at h
      simp only [Option.some.injEq, Prod.mk.injEq] at h
      obtain ⟨ha, hb⟩ := h
      have := stripFence_sound pat [] r hs
      simp [← ha, ← hb, this]
  | cons c cs ih =>
    intro a b h
    simp only [splitAtSub] at h
    cases hs : stripFence pat (c :: cs) with
    | some r =>
      rw [hs] at h
      simp only [Option.some.injEq, Prod.mk.injEq] at h
      obtain ⟨ha, hb⟩ := h
      have := stripFence_sound pat (c :: cs) r hs
      simp [← ha, ← hb, this]
    | none =>
      rw [hs] at h
      cases hr : splitAtSub pat cs with
      | none => rw [hr] at h; exact absurd h (by simp)
      | some ab =>
        obtain ⟨a', b'⟩ := ab
        rw [hr] at h
        simp only [Option.some.injEq, Prod.mk.injEq] at h
        obtain ⟨ha, hb⟩ := h
        have := ih a' b' hr
        simp [← ha, ← hb, this]

theorem tryClose_sound (rest ws cap suf : List Char)
    (h : tryClose rest = some (ws, cap, suf)) :
    rest = ws ++ cap ++ bt3 ++ suf := by
  simp only [tryClose] at h
  cases hs : splitAtSub bt3 (rest.dropWhile isJsWs) with
  | none => rw [hs] at h; exact absurd h (by simp)
  | some ab =>
    obtain ⟨cap', suf'⟩ := ab
    rw [hs] at h
    simp only [Option.some.injEq, Prod.mk.injEq] at h
    obtain ⟨hw, hc, hsf⟩ := h
    have hd := splitAtSub_sound bt3 _ cap' suf' hs
    have hr : rest.takeWhile isJsWs ++ rest.dropWhile isJsWs = rest :=
      List.takeWhile_append_dropWhile isJsWs rest
    rw [← hr, hd, ← hw, ← hc, ← hsf]
    simp

theorem openFence_sound (l ws cap suf : List Char)
    (h : openFence l = some (ws, cap, suf)) :
    l = fenceJson ++ ws ++ cap ++ bt3 ++ suf := by
  simp only [openFence] at h
  cases hs : stripFence fenceJson l with
  | none => rw [hs] at h; exact absurd h (by simp)
  | some rest =>
    rw [hs] at h
    have h1 := stripFence_sound fenceJson l rest hs
    have h2 := tryClose_sound rest ws cap suf h
    simp [h1, h2]

theorem findFence_sound :
    ∀ l pre ws cap suf : List Char,
      findFence l = some (pre, ws, cap, suf) →
      l = pre ++ fenceJson ++ ws ++ cap ++ bt3 ++ suf := by
  intro l
  induction l with
  | nil => intro pre ws cap suf h; simp [findFence] at h
  | cons c cs ih =>
    intro pre ws cap suf h
    simp only [findFence] at h
    cases ho : openFence (c :: cs) with
    | some x =>
      obtain ⟨ws', cap', suf'⟩ := x
      rw [ho] at h
      simp only [Option.some.injEq, Prod.mk.injEq] at h
      obtain ⟨hp, hw, hc, hsf⟩ := h
      have := openFence_sound (c :: cs) ws' cap' suf' ho
      simp [← hp, ← hw, ← hc, ← hsf, this]
    | none =>
      rw [ho] at h
      cases hr : findFence cs with
      | none => rw [hr] at h; exact absurd h (by simp)
      | some x =>
        obtain ⟨pre', ws', cap', suf'⟩ := x
        rw [hr] at h
        simp only [Option.some.injEq, Prod.mk.injEq] at h
        obtain ⟨hp, hw, hc, hsf⟩ := h
        have := ih pre' ws' cap' suf' hr
        simp [← hp, ← hw, ← hc, ← hsf, this]

/-! ### Helper lemmas on the chat pipeline -/

theorem trimList_eq_nil_of_ws (l : List Char) (h : ∀ c ∈ l, isJsWs c = true) :
    trimList l = [] := by
  unfold trimList
  have h1 : l.dropWhile isJsWs = [] := by
    rw [List.dropWhile_eq_nil_iff]
    intro x hx
    exact h x hx
  rw [h1]
  rfl

theorem pinsGuard_eq_false_of_lacks (locs : List Json)
    (h : ∀ e, locs.head? = some e → lacksLatLike e = true ∧ lacksLngLike e = true) :
    pinsGuard locs = false := by
  cases locs with
  | nil => rfl
  | cons e ls =>
    obtain ⟨hlat, _hlng⟩ := h e rfl
    simp only [lacksLatLike, Bool.and_eq_true, Option.isNone_iff_eq_none] at hlat
    simp [pinsGuard, hlat.1, hlat.2, truthy]

theorem normalizePin_eq_of_ne_null (l : Json) (h : l ≠ Json.null) :
    normalizePin l = some (normalizeFields l) := by
  cases l with
  | null => exact absurd rfl h
  | bool b => rfl
  | num n => rfl
  | str s => rfl
  | arr xs => rfl
  | obj fs => rfl

theorem mapPinsThrow_of_no_null (locs : List Json) (h : Json.null ∉ locs) :
    mapPinsThrow locs = some (locs.map normalizeFields) := by
  induction locs with
  | nil => rfl
  | cons l ls ih =>
    have hl : l ≠ Json.null := by
      intro he
      exact h (by simp [he])
    have hls : Json.null ∉ ls := by
      intro hm
      exact h (by simp [hm])
    simp only [mapPinsThrow, normalizePin_eq_of_ne_null l hl, ih hls, List.map_cons]

theorem processPins_eq_of_reject (parse : List Char → Option Json)
    (st : AppState) (jt : List Char)
    (h : ∀ locs : List Json, parse jt = some (Json.arr locs) → pinsGuard locs = false) :
    processPins parse st jt = st := by
  unfold processPins
  by_cases hjt : jt = []
  · rw [if_pos hjt]
  · rw [if_neg hjt]
    cases hp : parse jt with
    | none => rfl
    | some j =>
      cases j with
      | arr locs =>
        have hg := h locs hp
        simp [hg]
      | null => rfl
      | bool b => rfl
      | num n => rfl
      | str s => rfl
      | obj fs => rfl

/-- Common shape of a successful round trip whose candidate payload is
rejected (or absent): the narrative is appended, the pin list untouched,
the loading flag cleared. -/
theorem sendMessage_success_shape (parse : List Char → Option Json)
    (st : AppState) (t : Option (List Char)) (narr : List Char)
    (jt? : Option (List Char))
    (hin : trimList st.chatInput ≠ [])
    (hsplit : splitResponse (extractText t) = (narr, jt?))
    (hreject : ∀ jt, jt? = some jt →
      ∀ locs : List Json, parse jt = some (Json.arr locs) → pinsGuard locs = false) :
    (sendMessage parse st (FetchResult.success t)).mapPins = st.mapPins ∧
    (sendMessage parse st (FetchResult.success t)).chatMessages =
      st.chatMessages ++
        [{ role := Role.user, content := st.chatInput, markdown := none },
         { role := Role.assistant, content := narr, markdown := some true }] ∧
    (sendMessage parse st (FetchResult.success t)).isLoading = false ∧
    (sendMessage parse st (FetchResult.success t)).fetchCalls = st.fetchCalls + 1 := by
  unfold sendMessage
  rw [if_neg hin]
  simp only [hsplit]
  cases jt? with
  | none => simp
  | some jt =>
    have hpp := processPins_eq_of_reject parse
      { st with
        chatMessages := st.chatMessages ++
          [{ role := Role.user, content := st.chatInput, markdown := none },
           { role := Role.assistant, content := narr, markdown := some true }]
        chatInput := []
        isLoading := true
        fetchCalls := st.fetchCalls + 1 }
      jt (hreject jt rfl)
    simp [hpp]

/-- Common shape of a successful round trip whose payload is accepted:
the normalized pins replace the pin list wholesale. -/
theorem sendMessage_success_pins (parse : List Char → Option Json)
    (st : AppState) (t : Option (List Char)) (narr jt : List Char)
    (locs : List Json) (pins : List Pin)
    (hin : trimList st.chatInput ≠ [])
    (hsplit : splitResponse (extractText t) = (narr, some jt))
    (hne : jt ≠ [])
    (hp : parse jt = some (Json.arr locs))
    (hg : pinsGuard locs = true)
    (hm : mapPinsThrow locs = some pins) :
    (sendMessage parse st (FetchResult.success t)).mapPins = pins ∧
    (sendMessage parse st (FetchResult.success t)).chatMessages =
      st.chatMessages ++
        [{ role := Role.user, content := st.chatInput, markdown := none },
         { role := Role.assistant, content := narr, markdown := some true }] ∧
    (sendMessage parse st (FetchResult.success t)).isLoading = false := by
  unfold sendMessage
  rw [if_neg hin]
  simp only [hsplit]
  unfold processPins
  rw [if_neg hne, hp]
  simp [hg, hm]

/-! ### Concrete material for the witnesses -/

/-- A `JSON.parse` model that fails on every input. -/
def parseNone : List Char → Option Json := fun _ => none

/-- A state with pending input `"hi"`. -/
def sampleState : AppState :=
  { chatInput := "hi".toList, chatMessages := [], isLoading := false,
    mapPins := [], fetchCalls := 0 }

/-- A state whose input box holds only blanks. -/
def wsState : AppState :=
  { chatInput := ' ' :: ' ' :: [], chatMessages := [], isLoading := false,
    mapPins := [], fetchCalls := 0 }

/-- A response text carrying a fenced block with non-JSON content. -/
def demoText : List Char := "Hi ```json nope``` bye".toList

/-! ### The claims -/

/-- C5: for every response text containing no fenced JSON block (no
decomposition `a ++ "```json" ++ b ++ "```" ++ c` exists), the splitter
returns the full text unchanged as the narrative and produces no pins
payload. -/
theorem c5_no_fence_identity (text : List Char)
    (h : ¬ ∃ a b c : List Char, text = a ++ fenceJson ++ b ++ bt3 ++ c) :
    splitResponse text = (text, none) := by
  cases hf : findFence text with
  | none => simp [splitResponse, hf]
  | some x =>
    obtain ⟨pre, ws, cap, suf⟩ := x
    have hd := findFence_sound text pre ws cap suf hf
    exact absurd ⟨pre, ws ++ cap, suf, by simp [hd, List.append_assoc]⟩ h

/-- Witness for C5 at the block-free text `"hello"`. -/
theorem c5_witness : splitResponse "hello".toList = ("hello".toList, none) :=
  c5_no_fence_identity "hello".toList (by
    rintro ⟨a, b, c, h⟩
    have hl := congrArg List.length h
    simp only [List.length_append, fenceJson, bt3] at hl
    simp at hl
    omega)

/-- C7: submitting a blank (empty or all-whitespace) chat input leaves
the whole state untouched: no message appended, no network request
(`fetchCalls` unchanged), pins unchanged. -/
theorem c7_blank_input_noop (parse : List Char → Option Json)
    (st : AppState) (fr : FetchResult)
    (h : ∀ c ∈ st.chatInput, isJsWs c = true) :
    sendMessage parse st fr = st := by
  unfold sendMessage
  rw [if_pos (trimList_eq_nil_of_ws _ h)]

/-- Witness for C7 at the two-blank input. -/
theorem c7_witness : sendMessage parseNone wsState FetchResult.failure = wsState :=
  c7_blank_input_noop parseNone wsState FetchResult.failure (by decide)

/-- C9: a failed chat request appends exactly one fixed assistant error
message after the user's own message and clears the loading flag; the
pin list is untouched. -/
theorem c9_failure_error_message (parse : List Char → Option Json)
    (st : AppState)
    (hin : trimList st.chatInput ≠ []) :
    (sendMessage parse st FetchResult.failure).chatMessages =
      st.chatMessages ++
        [{ role := Role.user, content := st.chatInput, markdown := none },
         errorMessage] ∧
    (sendMessage parse st FetchResult.failure).isLoading = false ∧
    (sendMessage parse st FetchResult.failure).mapPins = st.mapPins := by
  unfold sendMessage
  rw [if_neg hin]
  simp

/-- Witness for C9 at the `"hi"` input state. -/
theorem c9_witness :
    (sendMessage parseNone sampleState FetchResult.failure).chatMessages =
      sampleState.chatMessages ++
        [{ role := Role.user, content := sampleState.chatInput, markdown := none },
         errorMessage] ∧
    (sendMessage parseNone sampleState FetchResult.failure).isLoading = false ∧
    (sendMessage parseNone sampleState FetchResult.failure).mapPins = sampleState.mapPins :=
  c9_failure_error_message parseNone sampleState (by decide)

/-- C2: when the extracted candidate payload does not parse as a JSON
array (including a thrown `JSON.parse`), or parses but its first element
lacks both a latitude-like and a longitude-like field, no pins are
produced: the pin list is unchanged while the narrative is still
appended to the transcript. -/
theorem c2_rejected_payload_no_pins (parse : List Char → Option Json)
    (st : AppState) (t : Option (List Char)) (narr jt : List Char)
    (hin : trimList st.chatInput ≠ [])
    (hsplit : splitResponse (extractText t) = (narr, some jt))
    (hcond : parse jt = none ∨
      ∀ locs : List Json, parse jt = some (Json.arr locs) →
        ∀ e, locs.head? = some e → lacksLatLike e = true ∧ lacksLngLike e = true) :
    (sendMessage parse st (FetchResult.success t)).mapPins = st.mapPins ∧
    (sendMessage parse st (FetchResult.success t)).chatMessages =
      st.chatMessages ++
        [{ role := Role.user, content := st.chatInput, markdown := none },
         { role := Role.assistant, content := narr, markdown := some true }] ∧
    (sendMessage parse st (FetchResult.success t)).isLoading = false := by
  have hreject : ∀ jt', some jt = some jt' →
      ∀ locs : List Json, parse jt' = some (Json.arr locs) → pinsGuard locs = false := by
    intro jt' hjt' locs hl
    obtain rfl : jt = jt' := by injection hjt'
    cases hcond with
    | inl hp => rw [hp] at hl; exact absurd hl (by simp)
    | inr h2 => exact pinsGuard_eq_false_of_lacks locs (h2 locs hl)
  obtain ⟨h1, h2, h3, _⟩ :=
    sendMessage_success_shape parse st t narr (some jt) hin hsplit hreject
  exact ⟨h1, h2, h3⟩

/-- Witness for C2: the fenced payload `nope` fails to parse; the pins
stay empty and both messages are appended. -/
theorem c2_witness :
    (sendMessage parseNone sampleState (FetchResult.success (some demoText))).mapPins =
      sampleState.mapPins ∧
    (sendMessage parseNone sampleState (FetchResult.success (some demoText))).chatMessages =
      sampleState.chatMessages ++
        [{ role := Role.user, content := sampleState.chatInput, markdown := none },
         { role := Role.assistant, content := "Hi  bye".toList, markdown := some true }] ∧
    (sendMessage parseNone sampleState (FetchResult.success (some demoText))).isLoading = false :=
  c2_rejected_payload_no_pins parseNone sampleState (some demoText)
    "Hi  bye".toList "nope".toList (by decide) rfl (Or.inl rfl)

/-- C4: a fenced block whose content fails `JSON.parse` leaves the pin
list unchanged, and the narrative shown is the full text with the
fenced block (`"```json" ++ ws ++ cap ++ "```"`) removed and trimmed. -/
theorem c4_invalid_json_block (parse : List Char → Option Json)
    (st : AppState) (t : Option (List Char)) (pre ws cap suf : List Char)
    (hin : trimList st.chatInput ≠ [])
    (hf : findFence (extractText t) = some (pre, ws, cap, suf))
    (hp : parse cap = none) :
    extractText t = pre ++ fenceJson ++ ws ++ cap ++ bt3 ++ suf ∧
    (sendMessage parse st (FetchResult.success t)).mapPins = st.mapPins ∧
    (sendMessage parse st (FetchResult.success t)).chatMessages =
      st.chatMessages ++
        [{ role := Role.user, content := st.chatInput, markdown := none },
         { role := Role.assistant, content := trimList (pre ++ suf),
           markdown := some true }] ∧
    (sendMessage parse st (FetchResult.success t)).isLoading = false := by
  have hsplit : splitResponse (extractText t) = (trimList (pre ++ suf), some cap) := by
    unfold splitResponse
    rw [hf]
  have hreject : ∀ jt', some cap = some jt' →
      ∀ locs : List Json, parse jt' = some (Json.arr locs) → pinsGuard locs = false := by
    intro jt' hjt' locs hl
    obtain rfl : cap = jt' := by injection hjt'
    rw [hp] at hl
    exact absurd hl (by simp)
  obtain ⟨h1, h2, h3, _⟩ :=
    sendMessage_success_shape parse st t (trimList (pre ++ suf)) (some cap) hin hsplit hreject
  exact ⟨findFence_sound _ pre ws cap suf hf, h1, h2, h3⟩

/-- Witness for C4 at the same invalid-JSON fenced response. -/
theorem c4_witness :
    extractText (some demoText) =
      "Hi ".toList ++ fenceJson ++ " ".toList ++ "nope".toList ++ bt3 ++ " bye".toList ∧
    (sendMessage parseNone sampleState (FetchResult.success (some demoText))).mapPins =
      sampleState.mapPins ∧
    (sendMessage parseNone sampleState (FetchResult.success (some demoText))).chatMessages =
      sampleState.chatMessages ++
        [{ role := Role.user, content := sampleState.chatInput, markdown := none },
         { role := Role.assistant, content := trimList ("Hi ".toList ++ " bye".toList),
           markdown := some true }] ∧
    (sendMessage parseNone sampleState (FetchResult.success (some demoText))).isLoading = false :=
  c4_invalid_json_block parseNone sampleState (some demoText)
    "Hi ".toList " ".toList "nope".toList " bye".toList (by decide) rfl rfl

theorem jsCoalesce_some_none (v : Json) (h : v ≠ Json.null) :
    jsCoalesce (some v) none = some v := by
  cases v with
  | null => exact absurd rfl h
  | bool b => rfl
  | num n => rfl
  | str s => rfl
  | arr xs => rfl
  | obj fs => rfl

/-- C6: a response whose fenced block content is
`[{"lat":1,"lng":2,"label":"A"}]` yields the single canonical pin
`lat 1, lng 2, label "A"` and the narrative is the text with that block
removed and trimmed.  Only the first block is considered: `findFence`
returns the leftmost match, and the decomposition in the conclusion
leaves any later fenced block inside `suf`, hence inside the narrative. -/
theorem c6_single_pin_pipeline (parse : List Char → Option Json)
    (st : AppState) (t : Option (List Char)) (pre ws cap suf : List Char)
    (hin : trimList st.chatInput ≠ [])
    (hf : findFence (extractText t) = some (pre, ws, cap, suf))
    (hcap : cap = "[\x7b\"lat\":1,\"lng\":2,\"label\":\"A\"\x7d]".toList)
    (hp : parse cap =
      some (Json.arr [Json.obj
        [("lat", Json.num 1), ("lng", Json.num 2), ("label", Json.str "A")]])) :
    extractText t = pre ++ fenceJson ++ ws ++ cap ++ bt3 ++ suf ∧
    (sendMessage parse st (FetchResult.success t)).mapPins =
      [{ lat := some (Json.num 1), lng := some (Json.num 2),
         label := some (Json.str "A"), icon := none, description := none }] ∧
    (sendMessage parse st (FetchResult.success t)).chatMessages =
      st.chatMessages ++
        [{ role := Role.user, content := st.chatInput, markdown := none },
         { role := Role.assistant, content := trimList (pre ++ suf),
           markdown := some true }] ∧
    (sendMessage parse st (FetchResult.success t)).isLoading = false := by
  have hsplit : splitResponse (extractText t) = (trimList (pre ++ suf), some cap) := by
    unfold splitResponse
    rw [hf]
  have hne : cap ≠ [] := by rw [hcap]; decide
  obtain ⟨h1, h2, h3⟩ :=
    sendMessage_success_pins parse st t (trimList (pre ++ suf)) cap
      [Json.obj [("lat", Json.num 1), ("lng", Json.num 2), ("label", Json.str "A")]]
      [{ lat := some (Json.num 1), lng := some (Json.num 2),
         label := some (Json.str "A"), icon := none, description := none }]
      hin hsplit hne hp rfl rfl
  exact ⟨findFence_sound _ pre ws cap suf hf, h1, h2, h3⟩

/-- The pins payload of C6's test response. -/
def pinsPayload : List Char := "[\x7b\"lat\":1,\"lng\":2,\"label\":\"A\"\x7d]".toList

/-- A `JSON.parse` model correct at C6's payload. -/
def parsePins : List Char → Option Json := fun s =>
  if s = pinsPayload then
    some (Json.arr [Json.obj
      [("lat", Json.num 1), ("lng", Json.num 2), ("label", Json.str "A")]])
  else none

/-- A response holding C6's payload in its first fenced block and a
second fenced block afterwards (which stays in the narrative). -/
def demoPinText : List Char :=
  "Go!```json[\x7b\"lat\":1,\"lng\":2,\"label\":\"A\"\x7d]```and```json[]``` ok".toList

/-- Witness for C6 at a concrete two-block response. -/
theorem c6_witness :
    extractText (some demoPinText) =
      "Go!".toList ++ fenceJson ++ [] ++ pinsPayload ++ bt3 ++ "and```json[]``` ok".toList ∧
    (sendMessage parsePins sampleState (FetchResult.success (some demoPinText))).mapPins =
      [{ lat := some (Json.num 1), lng := some (Json.num 2),
         label := some (Json.str "A"), icon := none, description := none }] ∧
    (sendMessage parsePins sampleState (FetchResult.success (some demoPinText))).chatMessages =
      sampleState.chatMessages ++
        [{ role := Role.user, content := sampleState.chatInput, markdown := none },
         { role := Role.assistant,
           content := trimList ("Go!".toList ++ "and```json[]``` ok".toList),
           markdown := some true }] ∧
    (sendMessage parsePins sampleState (FetchResult.success (some demoPinText))).isLoading = false :=
  c6_single_pin_pipeline parsePins sampleState (some demoPinText)
    "Go!".toList [] pinsPayload "and```json[]``` ok".toList
    (by decide) rfl rfl rfl

/-- C3 counterexample: with the shared value JSON `null`, the two key
forms do not normalize identically: `undefined ?? null` is `null` but
`null ?? undefined` is `undefined`, so the `latitude` form keeps a
`null` latitude while the `lat` form drops it. -/
theorem c3_counterexample :
    normalizePin (Json.obj
      [("latitude", Json.null), ("longitude", Json.num 2), ("name", Json.str "A")]) ≠
    normalizePin (Json.obj
      [("lat", Json.null), ("lng", Json.num 2), ("label", Json.str "A")]) := by
  have hA : normalizePin (Json.obj
      [("latitude", Json.null), ("longitude", Json.num 2), ("name", Json.str "A")]) =
      some { lat := some Json.null, lng := some (Json.num 2),
             label := some (Json.str "A"), icon := none, description := none } := rfl
  have hB : normalizePin (Json.obj
      [("lat", Json.null), ("lng", Json.num 2), ("label", Json.str "A")]) =
      some { lat := none, lng := some (Json.num 2),
             label := some (Json.str "A"), icon := none, description := none } := rfl
  rw [hA, hB]
  intro h
  exact Option.noConfusion (congrArg Pin.lat (Option.some.inj h))

/-- C3 amended: provided none of the three shared values is JSON
`null`, a record with keys `latitude`/`longitude`/`name` normalizes to
exactly the same pin as the record with keys `lat`/`lng`/`label` and the
same values. -/
theorem c3_normalize_agree (v1 v2 v3 : Json)
    (h1 : v1 ≠ Json.null) (h2 : v2 ≠ Json.null) (h3 : v3 ≠ Json.null) :
    normalizePin (Json.obj [("latitude", v1), ("longitude", v2), ("name", v3)]) =
    normalizePin (Json.obj [("lat", v1), ("lng", v2), ("label", v3)]) := by
  show some (normalizeFields (Json.obj [("latitude", v1), ("longitude", v2), ("name", v3)])) =
       some (normalizeFields (Json.obj [("lat", v1), ("lng", v2), ("label", v3)]))
  unfold normalizeFields
  simp [getField, jsCoalesce, jsCoalesce_some_none v1 h1, jsCoalesce_some_none v2 h2,
    jsCoalesce_some_none v3 h3]

/-- Witness for the amended C3 at the values `1`, `2`, `"A"`. -/
theorem c3_witness :
    normalizePin (Json.obj
      [("latitude", Json.num 1), ("longitude", Json.num 2), ("name", Json.str "A")]) =
    normalizePin (Json.obj
      [("lat", Json.num 1), ("lng", Json.num 2), ("label", Json.str "A")]) :=
  c3_normalize_agree (Json.num 1) (Json.num 2) (Json.str "A")
    (fun h => Json.noConfusion h) (fun h => Json.noConfusion h)
    (fun h => Json.noConfusion h)

/-- C1 counterexample: the switch sequence map → home → map creates a
second map instance (the reactive block on source lines 140-142 resets
`mapInitialized` when leaving, so re-entry re-runs the init block of
lines 126-138), refuting "no new map instance is created" for sequences
that leave and return. -/
theorem c1_counterexample :
    (runScreens initMapUi [Screen.map, Screen.home, Screen.map]).mapCreated = 2 ∧
    (runScreens initMapUi [Screen.map]).mapCreated = 1 := ⟨rfl, rfl⟩

/-- C1 amended: leaving the map screen resets the initialization flag,
and every re-entry from a non-map screen re-invokes the script loader
and creates one fresh map instance (the loader itself never issues a
second network request, see C8). -/
theorem c1_map_recreated_on_reentry (st : MapUi) (s : Screen)
    (h : s ≠ Screen.map) :
    (selectScreen st s).mapInitialized = false ∧
    (selectScreen (selectScreen st s) Screen.map).mapCreated = st.mapCreated + 1 ∧
    (selectScreen (selectScreen st s) Screen.map).loaderCalls = st.loaderCalls + 1 := by
  refine ⟨by simp [selectScreen, h], ?_, ?_⟩ <;> simp [selectScreen, h]

/-- Witness for the amended C1: home-screen detour from a fresh page. -/
theorem c1_witness :
    (selectScreen initMapUi Screen.home).mapInitialized = false ∧
    (selectScreen (selectScreen initMapUi Screen.home) Screen.map).mapCreated =
      initMapUi.mapCreated + 1 ∧
    (selectScreen (selectScreen initMapUi Screen.home) Screen.map).loaderCalls =
      initMapUi.loaderCalls + 1 :=
  c1_map_recreated_on_reentry initMapUi Screen.home (by decide)

theorem gstep_requests_inv (env : GmapsEnv)
    (h : env.scriptRequests = (if env.scriptTag then 1 else 0)) (e : GEvent) :
    (gstep env e).scriptRequests = (if (gstep env e).scriptTag then 1 else 0) := by
  cases e with
  | onload => simpa [gstep] using h
  | call =>
    unfold gstep loadGoogleMaps
    by_cases h1 : env.googleMapsReady
    · simpa [h1] using h
    · by_cases h2 : env.scriptTag
      · by_cases h3 : env.gmapsLoaded <;> simp_all
      · simp_all

theorem foldl_requests_inv :
    ∀ (evs : List GEvent) (env : GmapsEnv),
      env.scriptRequests = (if env.scriptTag then 1 else 0) →
      (evs.foldl gstep env).scriptRequests =
        (if (evs.foldl gstep env).scriptTag then 1 else 0) := by
  intro evs
  induction evs with
  | nil => intro env h; simpa using h
  | cons e es ih =>
    intro env h
    simpa using ih (gstep env e) (gstep_requests_inv env h e)

/-- C8: in every execution from a fresh page the external map script is
requested at most once, and a call of the loader made while the script
tag already exists issues no request: it resolves immediately when the
SDK or the `gmapsLoaded` flag is present and otherwise waits for the
`gmaps:loaded` signal. -/
theorem c8_script_requested_once :
    (∀ evs : List GEvent, (evs.foldl gstep initGmaps).scriptRequests ≤ 1) ∧
    (∀ env : GmapsEnv, env.scriptTag = true →
      (loadGoogleMaps env).1.scriptRequests = env.scriptRequests ∧
      ((loadGoogleMaps env).2 = LoadOutcome.immediate ∨
        (loadGoogleMaps env).2 = LoadOutcome.waiting)) := by
  constructor
  · intro evs
    have h := foldl_requests_inv evs initGmaps (by rfl)
    rw [h]
    split <;> omega
  · intro env ht
    unfold loadGoogleMaps
    by_cases h1 : env.googleMapsReady
    · simp [h1]
    · by_cases h3 : env.gmapsLoaded <;> simp [h1, ht, h3]

/-- Witness for C8: two loader calls, the script's own load, then a
third call — one request in total; and a concrete second call on an
existing tag issues no request and waits. -/
theorem c8_witness :
    (([GEvent.call, GEvent.call, GEvent.onload, GEvent.call].foldl gstep
        initGmaps).scriptRequests ≤ 1) ∧
    ((loadGoogleMaps
        { googleMapsReady := false, scriptTag := true, gmapsLoaded := false,
          scriptRequests := 1, waiters := 0 }).1.scriptRequests =
      ({ googleMapsReady := false, scriptTag := true, gmapsLoaded := false,
          scriptRequests := 1, waiters := 0 } : GmapsEnv).scriptRequests ∧
      ((loadGoogleMaps
          { googleMapsReady := false, scriptTag := true, gmapsLoaded := false,
            scriptRequests := 1, waiters := 0 }).2 = LoadOutcome.immediate ∨
        (loadGoogleMaps
          { googleMapsReady := false, scriptTag := true, gmapsLoaded := false,
            scriptRequests := 1, waiters := 0 }).2 = LoadOutcome.waiting)) :=
  ⟨c8_script_requested_once.1 _, c8_script_requested_once.2 _ rfl⟩

/-- An array whose first element passes the guard but whose second
element is JSON `null`. -/
def nullRowLocs : List Json :=
  [Json.obj [("lat", Json.num 1), ("lng", Json.num 2)], Json.null]

/-- A `JSON.parse` model returning `nullRowLocs` for the payload `X`. -/
def parseNullRow : List Char → Option Json := fun s =>
  if s = "X".toList then some (Json.arr nullRowLocs) else none

/-- A response whose fenced block carries the payload `X`. -/
def nullRowText : List Char := "See```jsonX``` !".toList

/-- C10 counterexample: the guard passes on the first element of
`[{lat:1,lng:2}, null]`, yet not every element becomes a pin — the
property access `loc.lat` on the `null` element throws, the empty catch
swallows it, and no pins at all are produced. -/
theorem c10_counterexample :
    pinsGuard nullRowLocs = true ∧
    mapPinsThrow nullRowLocs = none ∧
    (sendMessage parseNullRow sampleState
      (FetchResult.success (some nullRowText))).mapPins = [] :=
  ⟨rfl, rfl, rfl⟩

/-- C10 amended: the guard inspects only the first element; provided no
element of the parsed array is JSON `null`, every element becomes a pin
— including later elements lacking latitude-like or longitude-like
fields, whose pins have `undefined` lat and lng.  (An array containing
`null` instead aborts the mapping, per the counterexample.) -/
theorem c10_first_element_gate (parse : List Char → Option Json)
    (st : AppState) (t : Option (List Char)) (pre ws cap suf : List Char)
    (locs : List Json)
    (hin : trimList st.chatInput ≠ [])
    (hf : findFence (extractText t) = some (pre, ws, cap, suf))
    (hne : cap ≠ [])
    (hp : parse cap = some (Json.arr locs))
    (hg : pinsGuard locs = true)
    (hnull : Json.null ∉ locs) :
    (sendMessage parse st (FetchResult.success t)).mapPins =
      locs.map normalizeFields ∧
    ∀ e ∈ locs, lacksLatLike e = true → lacksLngLike e = true →
      (normalizeFields e).lat = none ∧ (normalizeFields e).lng = none := by
  have hsplit : splitResponse (extractText t) = (trimList (pre ++ suf), some cap) := by
    unfold splitResponse
    rw [hf]
  obtain ⟨h1, _, _⟩ :=
    sendMessage_success_pins parse st t (trimList (pre ++ suf)) cap locs
      (locs.map normalizeFields) hin hsplit hne hp hg
      (mapPinsThrow_of_no_null locs hnull)
  refine ⟨h1, ?_⟩
  intro e _he hlat hlng
  simp only [lacksLatLike, lacksLngLike, Bool.and_eq_true,
    Option.isNone_iff_eq_none] at hlat hlng
  constructor
  · show jsCoalesce (getField e "lat") (getField e "latitude") = none
    rw [hlat.1, hlat.2]
    rfl
  · show jsCoalesce (getField e "lng") (getField e "longitude") = none
    rw [hlng.1, hlng.2]
    rfl

/-- An array whose first element passes the guard and whose second
element has no coordinate fields at all. -/
def gateLocs : List Json :=
  [Json.obj [("lat", Json.num 1), ("lng", Json.num 2)],
   Json.obj [("label", Json.str "B")]]

/-- A `JSON.parse` model returning `gateLocs` for the payload `Y`. -/
def parseGate : List Char → Option Json := fun s =>
  if s = "Y".toList then some (Json.arr gateLocs) else none

/-- A response whose fenced block carries the payload `Y`. -/
def gateText : List Char := "Go```jsonY``` :)".toList

/-- Witness for the amended C10: both rows become pins, the coordinate-
free row with undefined lat and lng. -/
theorem c10_witness :
    (sendMessage parseGate sampleState
      (FetchResult.success (some gateText))).mapPins =
      gateLocs.map normalizeFields ∧
    ∀ e ∈ gateLocs, lacksLatLike e = true → lacksLngLike e = true →
      (normalizeFields e).lat = none ∧ (normalizeFields e).lng = none :=
  c10_first_element_gate parseGate sampleState (some gateText)
    "Go".toList [] "Y".toList " :)".toList gateLocs
    (by decide) rfl (by decide) rfl rfl
    (by simp [gateLocs])

end Postport
